import Mathlib

/-!
Verification of the Medihelp appointment-scheduling core: a shallow embedding
of the appointment models, serializers and views (`appointments/models.py`,
`appointments/serializers.py`, `appointments/views.py`, `accounts/views.py`)
with timestamps modelled as natural numbers counting minutes, and proofs of
the specified properties over that embedding.
-/

namespace Medihelp

/-- `User.Role` text choices from `accounts/models.py`. -/
inductive Role
  | patient
  | doctor
  | admin
deriving DecidableEq, Repr

/-- `Appointment.AppointmentStatus` text choices from `appointments/models.py`. -/
inductive AppointmentStatus
  | SCHEDULED
  | COMPLETED
  | CANCELLED
  | NOSHOW
deriving DecidableEq, Repr

/-- `DoctorProfile.VerificationStatus` text choices from `accounts/models.py`. -/
inductive VerificationStatus
  | pending
  | approved
  | rejected
deriving DecidableEq, Repr

/-- A user row of `accounts/models.py` (the fields the scheduling core reads).
`is_staff` is inherited from the framework's abstract user model. -/
structure User where
  id : Nat
  role : Role
  is_staff : Bool
deriving DecidableEq, Repr

/-- Modelled from the spec: the `is_patient` role capability of `User` is read by
`appointments/serializers.py` and `appointments/views.py` but its definition is
not among the source files (only callers and tests are); the model tests pin it
as `role == PATIENT`. -/
def User.is_patient (u : User) : Bool := u.role == Role.patient

/-- Modelled from the spec: the `is_doctor` role capability of `User`, pinned by
the model tests as `role == DOCTOR`; its definition is not among the source files. -/
def User.is_doctor (u : User) : Bool := u.role == Role.doctor

/-- Modelled from the spec: the `is_admin` role capability of `User`, read by
`AppointmentCancelView.get_object` and pinned by the model tests as
`role == ADMIN`; its definition is not among the source files. -/
def User.is_admin (u : User) : Bool := u.role == Role.admin

/-- A doctor profile row of `accounts/models.py` (the fields the scheduling
core reads). -/
structure DoctorProfile where
  id : Nat
  user : Nat
  verification_status : VerificationStatus
deriving DecidableEq, Repr

/-- An appointment row of `appointments/models.py`; `scheduled_time` is in
minutes and `duration` is in minutes, as in the source (`timedelta(minutes=...)`). -/
structure Appointment where
  id : Nat
  patient : Nat
  doctor : Nat
  scheduled_time : Nat
  duration : Nat
  status : AppointmentStatus
  reason : String
deriving DecidableEq, Repr

/-- `Appointment.end_time`: `scheduled_time + timedelta(minutes=duration)`. -/
def Appointment.end_time (a : Appointment) : Nat := a.scheduled_time + a.duration

/-- `Appointment.ALLOWED_TRANSITIONS` from `appointments/models.py`. -/
def ALLOWED_TRANSITIONS : AppointmentStatus → List AppointmentStatus
  | .SCHEDULED => [.COMPLETED, .CANCELLED, .NOSHOW]
  | .COMPLETED => []
  | .CANCELLED => []
  | .NOSHOW => []

/-- The errors raised by the scheduling core.  A `ValidationError` with a dict
payload keyed by a field name becomes `validation field msg`; the transition
`ValidationError` of `Appointment.clean`, whose payload renders the original
status, the attempted status and the joined allowed-transition list, becomes
`invalidTransition` carrying exactly those data; `PermissionDenied` becomes
`permissionDenied`; `get_object_or_404` misses become `notFound`. -/
inductive ApptError
  | validation (field : String) (msg : String)
  | invalidTransition (fromStatus : AppointmentStatus) (toStatus : AppointmentStatus)
      (allowed : List AppointmentStatus)
  | permissionDenied (msg : String)
  | notFound
deriving DecidableEq, Repr

/-- `Appointment.clean` from `appointments/models.py`: reject a `SCHEDULED`
appointment whose `scheduled_time` is in the past, then, when the instance
already exists in the database (`self.pk` set and the original row found),
reject a status change that is not in `ALLOWED_TRANSITIONS` of the original
status.  `original` is the stored status of the existing row, `none` for a
new instance. -/
def Appointment.clean (now : Nat) (original : Option AppointmentStatus)
    (a : Appointment) : Except ApptError Unit :=
  if a.status = AppointmentStatus.SCHEDULED ∧ a.scheduled_time < now then
    .error (.validation "scheduled_time" "Cannot schedule an appointment in the past.")
  else
    match original with
    | some orig =>
      if orig ≠ a.status ∧ a.status ∉ ALLOWED_TRANSITIONS orig then
        .error (.invalidTransition orig a.status (ALLOWED_TRANSITIONS orig))
      else
        .ok ()
    | none => .ok ()

/-- A session record row of `appointments/models.py`; times in minutes. -/
structure SessionRecord where
  id : Nat
  appointment : Nat
  start_time : Nat
  end_time : Option Nat
  notes : String
  prescription : String
  diagnosis : String
  treatment : String
deriving DecidableEq, Repr

/-- `SessionRecord.clean` from `appointments/models.py`: diagnosis required,
treatment required, `end_time` (when supplied) strictly after `start_time`,
and the owning appointment must be `COMPLETED`. -/
def SessionRecord.clean (appointment_status : AppointmentStatus)
    (r : SessionRecord) : Except ApptError Unit :=
  if r.diagnosis = "" then
    .error (.validation "diagnosis" "Diagnosis is required")
  else if r.treatment = "" then
    .error (.validation "treatment" "Treatment is required")
  else if (match r.end_time with | some e => decide (e ≤ r.start_time) | none => false) = true then
    .error (.validation "end_time" "End time must be after start time.")
  else if appointment_status ≠ AppointmentStatus.COMPLETED then
    .error (.validation "appointment" "Can only create session records for completed appointments")
  else
    .ok ()

/-- The persistent state the scheduling core reads and writes: the appointment
table and the session-record table, with the next fresh primary keys. -/
structure DBState where
  appointments : List Appointment
  session_records : List SessionRecord
  next_appointment_id : Nat
  next_session_id : Nat
deriving DecidableEq, Repr

/-- The empty database. -/
def initialState : DBState :=
  { appointments := [], session_records := [], next_appointment_id := 0, next_session_id := 0 }

/-- Does some appointment of `doctor_id` in state `SCHEDULED` overlap the
half-open candidate interval, in the sense checked by
`AppointmentSerializer.validate`: the query filters the doctor's appointments
with `scheduled_time < candidate end` and `status = SCHEDULED`, and the loop
rejects when `candidate start < existing end`. -/
def conflictExists (doctor_id scheduled_time duration : Nat)
    (appointments : List Appointment) : Bool :=
  (appointments.filter (fun appt =>
      decide (appt.doctor = doctor_id ∧
        appt.scheduled_time < scheduled_time + duration ∧
        appt.status = AppointmentStatus.SCHEDULED))).any
    (fun appt => decide (scheduled_time < appt.scheduled_time + appt.duration))

/-- `AppointmentSerializer.validate` from `appointments/serializers.py`
on the create path (`self.instance` is `None`, so the `exclude` clause removes
nothing): patients only, doctor approved, scheduled time not in the past, then
the conflict check against the doctor's `SCHEDULED` appointments. -/
def AppointmentSerializer.validate (now : Nat) (user : User) (doctor : User)
    (doctor_profile : DoctorProfile) (scheduled_time duration : Nat)
    (appointments : List Appointment) : Except ApptError Unit :=
  if user.is_patient = false then
    .error (.validation "non_field_errors" "Only patients can book appointments.")
  else if doctor_profile.verification_status ≠ VerificationStatus.approved then
    .error (.validation "doctor" "Doctor is not approved")
  else if scheduled_time < now then
    .error (.validation "scheduled_time" "Scheduled time must be in the future")
  else if conflictExists doctor.id scheduled_time duration appointments then
    .error (.validation "non_field_errors" "Doctor is not available at this time")
  else
    .ok ()

/-- `CreateAppointment`: the `AppointmentCreateView` pipeline.  Field-level
validation first (the `doctor` field's queryset is restricted to users with
the doctor role, `duration` is bounded to 10–240 by `extra_kwargs`,
`validate_scheduled_time` rejects past times), then
`AppointmentSerializer.validate`, then `create` (which re-checks the patient
capability and stamps `patient` from the requesting user), then the model
`save` running `full_clean` on the new row.  On success the new `SCHEDULED`
appointment is appended with a fresh primary key. -/
def createAppointment (now : Nat) (user : User) (doctor : User)
    (doctor_profile : DoctorProfile) (scheduled_time duration : Nat)
    (reason : String) (s : DBState) : Except ApptError (Appointment × DBState) :=
  if doctor.role ≠ Role.doctor then
    .error (.validation "doctor" "Invalid pk")
  else if duration < 10 ∨ 240 < duration then
    .error (.validation "duration" "Duration out of range")
  else if scheduled_time < now then
    .error (.validation "scheduled_time" "Scheduled time must be in the future")
  else
    match AppointmentSerializer.validate now user doctor doctor_profile
        scheduled_time duration s.appointments with
    | .error e => .error e
    | .ok () =>
      if user.is_patient = false then
        .error (.validation "patient" "Only patients can create appointments")
      else
        let a : Appointment :=
          { id := s.next_appointment_id, patient := user.id, doctor := doctor.id,
            scheduled_time := scheduled_time, duration := duration,
            status := AppointmentStatus.SCHEDULED, reason := reason }
        match Appointment.clean now none a with
        | .error e => .error e
        | .ok () =>
          .ok (a, { s with appointments := s.appointments ++ [a],
                           next_appointment_id := s.next_appointment_id + 1 })

/-- `CancelAppointment`: `AppointmentCancelView.get_object` plus `update`.
Look the appointment up, require the actor to be its patient, its doctor or an
admin, require status `SCHEDULED`, then set status to `CANCELLED` and reason to
the supplied value (default `"Cancelled by user."`) and save through
`full_clean`. -/
def cancelAppointment (now : Nat) (user : User) (appointment_id : Nat)
    (reason : Option String) (s : DBState) : Except ApptError (Appointment × DBState) :=
  match s.appointments.find? (fun a => a.id == appointment_id) with
  | none => .error .notFound
  | some appointment =>
    if ¬ (user.id = appointment.patient ∨ user.id = appointment.doctor ∨
          user.is_admin = true) then
      .error (.permissionDenied "You are not authorized to cancel this appointment.")
    else if appointment.status ≠ AppointmentStatus.SCHEDULED then
      .error (.permissionDenied "Only scheduled appointments can be cancelled.")
    else
      let updated : Appointment :=
        { appointment with status := AppointmentStatus.CANCELLED,
                           reason := reason.getD "Cancelled by user." }
      match Appointment.clean now (some appointment.status) updated with
      | .error e => .error e
      | .ok () =>
        .ok (updated,
          { s with appointments :=
              s.appointments.map (fun a => if a.id == appointment_id then updated else a) })

/-- Modelled from the spec: `CompleteAppointment` — "same authorization and
precondition shape as cancel; sets status to COMPLETED".  The source exposes it
only implicitly as a generic status update honoring the transition table; no
dedicated view for it is among the source files. -/
def completeAppointment (now : Nat) (user : User) (appointment_id : Nat)
    (s : DBState) : Except ApptError (Appointment × DBState) :=
  match s.appointments.find? (fun a => a.id == appointment_id) with
  | none => .error .notFound
  | some appointment =>
    if ¬ (user.id = appointment.patient ∨ user.id = appointment.doctor ∨
          user.is_admin = true) then
      .error (.permissionDenied "You are not authorized to update this appointment.")
    else if appointment.status ≠ AppointmentStatus.SCHEDULED then
      .error (.permissionDenied "Only scheduled appointments can be completed.")
    else
      let updated : Appointment := { appointment with status := AppointmentStatus.COMPLETED }
      match Appointment.clean now (some appointment.status) updated with
      | .error e => .error e
      | .ok () =>
        .ok (updated,
          { s with appointments :=
              s.appointments.map (fun a => if a.id == appointment_id then updated else a) })

/-- `SessionRecord.save` from `appointments/models.py` for a new row: reject
when a session record for the same appointment already exists, then run
`full_clean`. -/
def SessionRecord.save (appointment_status : AppointmentStatus)
    (existing : List SessionRecord) (r : SessionRecord) : Except ApptError Unit :=
  if existing.any (fun q => q.appointment == r.appointment) then
    .error (.validation "non_field_errors" "Session record already exists for this appointment")
  else
    SessionRecord.clean appointment_status r

/-- `CreateSessionRecord`: `SessionRecordCreateView.perform_create`.  The
serializer's own `validate` skips the end-time comparison at creation (the
instance is new, so it sees no `start_time`).  The view then fetches the
appointment (404 when absent), requires the actor to be the assigned doctor,
rejects a duplicate session record, requires status `COMPLETED`, and saves the
record with `start_time` set to the current time, which runs
`SessionRecord.save`. -/
def sessionRecordCreate (now : Nat) (user : User) (appointment_id : Nat)
    (end_time : Option Nat) (notes prescription diagnosis treatment : String)
    (s : DBState) : Except ApptError (SessionRecord × DBState) :=
  match s.appointments.find? (fun a => a.id == appointment_id) with
  | none => .error .notFound
  | some appointment =>
    if user.id ≠ appointment.doctor then
      .error (.permissionDenied "Only the assigned doctor can create session records.")
    else if s.session_records.any (fun r => r.appointment == appointment_id) then
      .error (.validation "detail" "A session record already exists for this appointment.")
    else if appointment.status ≠ AppointmentStatus.COMPLETED then
      .error (.validation "detail" "Can only create session record for completed appointments.")
    else
      let record : SessionRecord :=
        { id := s.next_session_id, appointment := appointment_id, start_time := now,
          end_time := end_time, notes := notes, prescription := prescription,
          diagnosis := diagnosis, treatment := treatment }
      match SessionRecord.save appointment.status s.session_records record with
      | .error e => .error e
      | .ok () =>
        .ok (record,
          { s with session_records := s.session_records ++ [record],
                   next_session_id := s.next_session_id + 1 })

/-- `DoctorVerificationView.update` checks the requested status against the
values of `DoctorProfile.VerificationStatus.choices`; this is the membership
test as a parse. -/
def parseVerificationStatus (st : String) : Option VerificationStatus :=
  if st = "pending" then some VerificationStatus.pending
  else if st = "approved" then some VerificationStatus.approved
  else if st = "rejected" then some VerificationStatus.rejected
  else none

/-- The account-side state the verification view reads and writes, together
with the appointment table (to state that the view never touches it). -/
structure AccountsState where
  doctor_profiles : List DoctorProfile
  appointments : List Appointment
deriving DecidableEq, Repr

/-- `SetVerificationStatus`: `DoctorVerificationView.update` from
`accounts/views.py`.  The `IsAdminUser` permission check (staff flag) guards
the view; the profile is looked up by `id` (404 when absent); a requested
status outside the `VerificationStatus` choices is rejected with
"Invalid verification status"; otherwise the profile's status is set and
saved.  Nothing else in the state is touched. -/
def DoctorVerificationView.update (actor : User) (id : Nat) (new_status : String)
    (s : AccountsState) : Except ApptError AccountsState :=
  if actor.is_staff = false then
    .error (.permissionDenied "Admin capability required")
  else
    match s.doctor_profiles.find? (fun p => p.id == id) with
    | none => .error .notFound
    | some _ =>
      match parseVerificationStatus new_status with
      | none => .error (.validation "error" "Invalid verification status")
      | some v =>
        .ok { s with doctor_profiles :=
          s.doctor_profiles.map (fun p =>
            if p.id == id then { p with verification_status := v } else p) }

/-- The state after an attempted `SetVerificationStatus`: the result state on
success, the unchanged state on failure. -/
def applyVerification (actor : User) (id : Nat) (new_status : String)
    (s : AccountsState) : AccountsState :=
  match DoctorVerificationView.update actor id new_status s with
  | .ok s1 => s1
  | .error _ => s

/-- The state after an attempted `CreateAppointment`: the result state on
success, the unchanged state on failure. -/
def applyCreate (now : Nat) (user : User) (doctor : User) (doctor_profile : DoctorProfile)
    (scheduled_time duration : Nat) (reason : String) (s : DBState) : DBState :=
  match createAppointment now user doctor doctor_profile scheduled_time duration reason s with
  | .ok (_, s1) => s1
  | .error _ => s

/-- The state after an attempted `CancelAppointment`. -/
def applyCancel (now : Nat) (user : User) (appointment_id : Nat) (reason : Option String)
    (s : DBState) : DBState :=
  match cancelAppointment now user appointment_id reason s with
  | .ok (_, s1) => s1
  | .error _ => s

/-- The state after an attempted `CompleteAppointment`. -/
def applyComplete (now : Nat) (user : User) (appointment_id : Nat) (s : DBState) : DBState :=
  match completeAppointment now user appointment_id s with
  | .ok (_, s1) => s1
  | .error _ => s

/-- The state after an attempted `CreateSessionRecord`. -/
def applySession (now : Nat) (user : User) (appointment_id : Nat) (end_time : Option Nat)
    (notes prescription diagnosis treatment : String) (s : DBState) : DBState :=
  match sessionRecordCreate now user appointment_id end_time notes prescription
      diagnosis treatment s with
  | .ok (_, s1) => s1
  | .error _ => s

/-- States reachable from the empty database by any sequence of
`CreateAppointment` and `CancelAppointment` operations (each attempt either
commits its result or leaves the state unchanged). -/
inductive Reachable : DBState → Prop
  | init : Reachable initialState
  | create (now : Nat) (user doctor : User) (doctor_profile : DoctorProfile)
      (scheduled_time duration : Nat) (reason : String) {s : DBState} :
      Reachable s →
      Reachable (applyCreate now user doctor doctor_profile scheduled_time duration reason s)
  | cancel (now : Nat) (user : User) (appointment_id : Nat) (reason : Option String)
      {s : DBState} : Reachable s →
      Reachable (applyCancel now user appointment_id reason s)

/-- States reachable from the empty database by any sequence of the
appointment-subsystem operations: create, cancel, complete, and
session-record creation. -/
inductive ReachableS : DBState → Prop
  | init : ReachableS initialState
  | create (now : Nat) (user doctor : User) (doctor_profile : DoctorProfile)
      (scheduled_time duration : Nat) (reason : String) {s : DBState} :
      ReachableS s →
      ReachableS (applyCreate now user doctor doctor_profile scheduled_time duration reason s)
  | cancel (now : Nat) (user : User) (appointment_id : Nat) (reason : Option String)
      {s : DBState} : ReachableS s →
      ReachableS (applyCancel now user appointment_id reason s)
  | complete (now : Nat) (user : User) (appointment_id : Nat) {s : DBState} :
      ReachableS s → ReachableS (applyComplete now user appointment_id s)
  | session (now : Nat) (user : User) (appointment_id : Nat) (end_time : Option Nat)
      (notes prescription diagnosis treatment : String) {s : DBState} :
      ReachableS s →
      ReachableS (applySession now user appointment_id end_time notes prescription
        diagnosis treatment s)

/-- The per-doctor non-overlap invariant: no two distinct `SCHEDULED`
appointments of the same doctor have intersecting `[start, end)` intervals. -/
def doctorNoOverlap (s : DBState) : Prop :=
  ∀ a1 ∈ s.appointments, ∀ a2 ∈ s.appointments,
    a1.id ≠ a2.id → a1.doctor = a2.doctor →
    a1.status = AppointmentStatus.SCHEDULED → a2.status = AppointmentStatus.SCHEDULED →
    ¬ (a1.scheduled_time < a2.end_time ∧ a2.scheduled_time < a1.end_time)

/-- The session-record uniqueness invariant: no two entries of the
session-record table reference the same appointment. -/
def atMostOneSessionRecord (s : DBState) : Prop :=
  s.session_records.Pairwise (fun r1 r2 => r1.appointment ≠ r2.appointment)

/-- A sample patient actor used to instantiate proved properties. -/
def samplePatient : User := { id := 1, role := Role.patient, is_staff := false }

/-- A sample approved doctor actor used to instantiate proved properties. -/
def sampleDoctor : User := { id := 2, role := Role.doctor, is_staff := false }

/-- The sample doctor's approved profile. -/
def sampleProfile : DoctorProfile :=
  { id := 1, user := 2, verification_status := VerificationStatus.approved }

/-- A sample completed appointment used to instantiate proved properties. -/
def sampleCompletedAppointment : Appointment :=
  { id := 7, patient := 1, doctor := 2, scheduled_time := 100, duration := 30,
    status := AppointmentStatus.COMPLETED, reason := "" }

/-- A sample session record attached to the sample completed appointment. -/
def sampleSessionRecord : SessionRecord :=
  { id := 0, appointment := 7, start_time := 200, end_time := none, notes := "",
    prescription := "", diagnosis := "Flu", treatment := "Rest" }

/-- A sample state holding the completed appointment and its session record. -/
def sampleSessionState : DBState :=
  { appointments := [sampleCompletedAppointment],
    session_records := [sampleSessionRecord],
    next_appointment_id := 8, next_session_id := 1 }

/-- A sample past `SCHEDULED` appointment (scheduled_time 100 with now 1000). -/
def samplePastScheduled : Appointment :=
  { id := 3, patient := 1, doctor := 2, scheduled_time := 100, duration := 30,
    status := AppointmentStatus.SCHEDULED, reason := "" }

/-- The sample busy-state appointment after cancellation with the default
reason. -/
def cancelledEarlyAppointment : Appointment :=
  { id := 0, patient := 5, doctor := 2, scheduled_time := 540, duration := 30,
    status := AppointmentStatus.CANCELLED, reason := "Cancelled by user." }

/-- The sample busy state after the cancellation. -/
def cancelledBusyState : DBState :=
  { appointments := [cancelledEarlyAppointment], session_records := [],
    next_appointment_id := 1, next_session_id := 0 }

/-- A session record attached to appointment 3. -/
def recordForAppointment3 : SessionRecord :=
  { id := 0, appointment := 3, start_time := 200, end_time := none, notes := "",
    prescription := "", diagnosis := "Flu", treatment := "Rest" }

/-- A sample state whose appointment 3 is still `SCHEDULED` yet already has a
session record attached. -/
def scheduledWithRecordState : DBState :=
  { appointments := [samplePastScheduled],
    session_records := [recordForAppointment3],
    next_appointment_id := 4, next_session_id := 1 }

/-- A sample 09:00-for-30-minutes appointment of doctor 2 (minutes: 540). -/
def earlyAppointment : Appointment :=
  { id := 0, patient := 5, doctor := 2, scheduled_time := 540, duration := 30,
    status := AppointmentStatus.SCHEDULED, reason := "" }

/-- A sample state where doctor 2 already has the 09:00 appointment. -/
def sampleBusyState : DBState :=
  { appointments := [earlyAppointment], session_records := [],
    next_appointment_id := 1, next_session_id := 0 }

/-- A sample admin actor with the staff flag set. -/
def sampleAdmin : User := { id := 10, role := Role.admin, is_staff := true }

/-- A sample accounts state holding the sample doctor profile and one
appointment. -/
def sampleAccounts : AccountsState :=
  { doctor_profiles := [sampleProfile], appointments := [earlyAppointment] }

theorem clean_some (now : Nat) (orig : AppointmentStatus) (a : Appointment) :
    Appointment.clean now (some orig) a =
      if a.status = AppointmentStatus.SCHEDULED ∧ a.scheduled_time < now then
        .error (.validation "scheduled_time" "Cannot schedule an appointment in the past.")
      else if orig ≠ a.status ∧ a.status ∉ ALLOWED_TRANSITIONS orig then
        .error (.invalidTransition orig a.status (ALLOWED_TRANSITIONS orig))
      else
        .ok () := rfl

theorem createAppointment_ok {now : Nat} {user doctor : User} {dp : DoctorProfile}
    {st dur : Nat} {r : String} {s : DBState} {a : Appointment} {s1 : DBState}
    (h : createAppointment now user doctor dp st dur r s = .ok (a, s1)) :
    a = { id := s.next_appointment_id, patient := user.id, doctor := doctor.id,
          scheduled_time := st, duration := dur,
          status := AppointmentStatus.SCHEDULED, reason := r } ∧
    s1 = { s with appointments := s.appointments ++ [a],
                  next_appointment_id := s.next_appointment_id + 1 } ∧
    conflictExists doctor.id st dur s.appointments = false := by
  unfold createAppointment at h
  split at h
  · exact absurd h (by simp)
  split at h
  · exact absurd h (by simp)
  split at h
  · exact absurd h (by simp)
  split at h
  · exact absurd h (by simp)
  next hval =>
  split at h
  · exact absurd h (by simp)
  dsimp only at h
  split at h
  · exact absurd h (by simp)
  next =>
    obtain ⟨rfl, rfl⟩ : a = _ ∧ s1 = _ := by
      constructor <;> [exact (Prod.mk.injEq _ _ _ _ ▸ (Except.ok.injEq _ _ ▸ h)).1.symm;
        exact (Prod.mk.injEq _ _ _ _ ▸ (Except.ok.injEq _ _ ▸ h)).2.symm]
    refine ⟨rfl, rfl, ?_⟩
    unfold AppointmentSerializer.validate at hval
    split at hval
    · exact absurd hval (by simp)
    split at hval
    · exact absurd hval (by simp)
    split at hval
    · exact absurd hval (by simp)
    next hnc => exact Bool.of_not_eq_true hnc

theorem cancelAppointment_ok {now : Nat} {user : User} {aid : Nat} {r : Option String}
    {s : DBState} {a1 : Appointment} {s1 : DBState}
    (h : cancelAppointment now user aid r s = .ok (a1, s1)) :
    ∃ appointment, s.appointments.find? (fun a => a.id == aid) = some appointment ∧
      (user.id = appointment.patient ∨ user.id = appointment.doctor ∨
        user.is_admin = true) ∧
      appointment.status = AppointmentStatus.SCHEDULED ∧
      a1 = { appointment with status := AppointmentStatus.CANCELLED,
                              reason := r.getD "Cancelled by user." } ∧
      s1 = { s with appointments :=
        s.appointments.map (fun a => if a.id == aid then a1 else a) } := by
  unfold cancelAppointment at h
  split at h
  · exact absurd h (by simp)
  next appointment hfind =>
  split at h
  · exact absurd h (by simp)
  next hauth =>
  split at h
  · exact absurd h (by simp)
  next hstat =>
  dsimp only at h
  split at h
  · exact absurd h (by simp)
  next =>
    have h1 := (Prod.mk.injEq _ _ _ _ ▸ (Except.ok.injEq _ _ ▸ h)).1
    have h2 := (Prod.mk.injEq _ _ _ _ ▸ (Except.ok.injEq _ _ ▸ h)).2
    refine ⟨appointment, hfind, not_not.mp hauth, not_not.mp (by
      intro hne; exact hstat hne), h1.symm, ?_⟩
    rw [← h2, h1]

theorem completeAppointment_ok {now : Nat} {user : User} {aid : Nat}
    {s : DBState} {a1 : Appointment} {s1 : DBState}
    (h : completeAppointment now user aid s = .ok (a1, s1)) :
    ∃ appointment, s.appointments.find? (fun a => a.id == aid) = some appointment ∧
      appointment.status = AppointmentStatus.SCHEDULED ∧
      a1 = { appointment with status := AppointmentStatus.COMPLETED } ∧
      s1 = { s with appointments :=
        s.appointments.map (fun a => if a.id == aid then a1 else a) } := by
  unfold completeAppointment at h
  split at h
  · exact absurd h (by simp)
  next appointment hfind =>
  split at h
  · exact absurd h (by simp)
  next hauth =>
  split at h
  · exact absurd h (by simp)
  next hstat =>
  dsimp only at h
  split at h
  · exact absurd h (by simp)
  next =>
    have h1 := (Prod.mk.injEq _ _ _ _ ▸ (Except.ok.injEq _ _ ▸ h)).1
    have h2 := (Prod.mk.injEq _ _ _ _ ▸ (Except.ok.injEq _ _ ▸ h)).2
    refine ⟨appointment, hfind, not_not.mp (by intro hne; exact hstat hne), h1.symm, ?_⟩
    rw [← h2, h1]

theorem sessionRecordCreate_ok {now : Nat} {user : User} {aid : Nat}
    {end_time : Option Nat} {notes prescription diagnosis treatment : String}
    {s : DBState} {rec : SessionRecord} {s1 : DBState}
    (h : sessionRecordCreate now user aid end_time notes prescription diagnosis
        treatment s = .ok (rec, s1)) :
    rec.appointment = aid ∧
    s.session_records.any (fun q => q.appointment == aid) = false ∧
    s1 = { s with session_records := s.session_records ++ [rec],
                  next_session_id := s.next_session_id + 1 } := by
  unfold sessionRecordCreate at h
  split at h
  · exact absurd h (by simp)
  next appointment hfind =>
  split at h
  · exact absurd h (by simp)
  next =>
  split at h
  · exact absurd h (by simp)
  next hdup =>
  split at h
  · exact absurd h (by simp)
  next hstat =>
  dsimp only at h
  split at h
  · exact absurd h (by simp)
  next =>
    have h1 := (Prod.mk.injEq _ _ _ _ ▸ (Except.ok.injEq _ _ ▸ h)).1
    have h2 := (Prod.mk.injEq _ _ _ _ ▸ (Except.ok.injEq _ _ ▸ h)).2
    refine ⟨by rw [← h1], Bool.of_not_eq_true hdup, by rw [← h2, ← h1]⟩

theorem find?_map_replace (l : List Appointment) (aid : Nat) (u : Appointment)
    (hu : u.id = aid) :
    ∀ a, l.find? (fun x => x.id == aid) = some a →
      (l.map (fun x => if x.id == aid then u else x)).find? (fun x => x.id == aid) =
        some u := by
  induction l with
  | nil => intro a ha; simp [List.find?] at ha
  | cons x xs ih =>
    intro a ha
    by_cases hx : (x.id == aid) = true
    · simp only [List.map_cons, if_pos hx]
      simp only [List.find?_cons, show (u.id == aid) = true by simp [hu]]
    · have hx1 : (x.id == aid) = false := by simpa using hx
      simp only [List.find?_cons, hx1] at ha
      simp only [List.map_cons, if_neg hx]
      simp only [List.find?_cons, hx1]
      exact ih a ha

theorem doctorNoOverlap_create {now : Nat} {user doctor : User} {dp : DoctorProfile}
    {st dur : Nat} {r : String} {s : DBState} (h : doctorNoOverlap s) :
    doctorNoOverlap (applyCreate now user doctor dp st dur r s) := by
  unfold applyCreate
  split
  case h_2 => exact h
  case h_1 x a s1 heq =>
    obtain ⟨ha, hs1, hconf⟩ := createAppointment_ok heq
    subst ha
    subst hs1
    have hnc : ∀ b ∈ s.appointments, b.doctor = doctor.id →
        b.status = AppointmentStatus.SCHEDULED →
        b.scheduled_time < st + dur → ¬ (st < b.scheduled_time + b.duration) := by
      intro b hb hbd hbs hlt hlt2
      have htrue : conflictExists doctor.id st dur s.appointments = true := by
        unfold conflictExists
        rw [List.any_eq_true]
        exact ⟨b, List.mem_filter.2 ⟨hb, by simp [hbd, hlt, hbs]⟩, by simp [hlt2]⟩
      rw [hconf] at htrue
      exact Bool.false_ne_true htrue
    intro a1 h1 a2 h2 hid hdoc h1s h2s
    simp only [List.mem_append, List.mem_singleton] at h1 h2
    rcases h1 with h1 | rfl
    · rcases h2 with h2 | rfl
      · exact h a1 h1 a2 h2 hid hdoc h1s h2s
      · rintro ⟨o1, o2⟩
        exact hnc a1 h1 hdoc h1s o1 o2
    · rcases h2 with h2 | rfl
      · rintro ⟨o1, o2⟩
        exact hnc a2 h2 hdoc.symm h2s o2 o1
      · exact absurd rfl hid

theorem doctorNoOverlap_cancel {now : Nat} {user : User} {aid : Nat}
    {r : Option String} {s : DBState} (h : doctorNoOverlap s) :
    doctorNoOverlap (applyCancel now user aid r s) := by
  unfold applyCancel
  split
  case h_2 => exact h
  case h_1 x a1 s1 heq =>
    obtain ⟨appt, hfind, hauth, hstat, ha1, hs1⟩ := cancelAppointment_ok heq
    subst hs1
    intro b1 hb1 b2 hb2 hid hdoc hbs1 hbs2
    simp only [List.mem_map] at hb1 hb2
    obtain ⟨c1, hc1, hfc1⟩ := hb1
    obtain ⟨c2, hc2, hfc2⟩ := hb2
    have hb1m : b1 ∈ s.appointments := by
      by_cases hx : (c1.id == aid) = true
      · rw [if_pos hx] at hfc1
        exfalso
        rw [← hfc1, ha1] at hbs1
        exact absurd hbs1 (by simp)
      · rw [if_neg hx] at hfc1
        rwa [← hfc1]
    have hb2m : b2 ∈ s.appointments := by
      by_cases hx : (c2.id == aid) = true
      · rw [if_pos hx] at hfc2
        exfalso
        rw [← hfc2, ha1] at hbs2
        exact absurd hbs2 (by simp)
      · rw [if_neg hx] at hfc2
        rwa [← hfc2]
    exact h b1 hb1m b2 hb2m hid hdoc hbs1 hbs2

/-- C1: for every doctor and every state reachable by any sequence of
`CreateAppointment` and `CancelAppointment` operations, no two distinct
appointments of that doctor that are both in status `SCHEDULED` have
overlapping half-open `[scheduled_time, scheduled_time + duration)`
intervals. -/
theorem C1_no_scheduled_overlap (s : DBState) (hr : Reachable s) : doctorNoOverlap s := by
  induction hr with
  | init =>
    intro a1 h1 a2 h2 hid hdoc h1s h2s
    exact absurd h1 (by simp [initialState])
  | create now user doctor dp st dur r hprev ih => exact doctorNoOverlap_create ih
  | cancel now user aid r hprev ih => exact doctorNoOverlap_cancel ih

/-- Witness for C1 at a concrete reachable state: the state after a successful
booking at time 100 for 30 minutes. -/
theorem C1_no_scheduled_overlap_witness :
    doctorNoOverlap (applyCreate 0 samplePatient sampleDoctor sampleProfile 100 30 "" initialState) :=
  C1_no_scheduled_overlap _
    (Reachable.create 0 samplePatient sampleDoctor sampleProfile 100 30 "" Reachable.init)

theorem applyCreate_session_records (now : Nat) (user doctor : User)
    (dp : DoctorProfile) (st dur : Nat) (r : String) (s : DBState) :
    (applyCreate now user doctor dp st dur r s).session_records = s.session_records := by
  unfold applyCreate
  split
  case h_1 x a s1 heq =>
    obtain ⟨_, hs1, _⟩ := createAppointment_ok heq
    rw [hs1]
  case h_2 => rfl

theorem applyCancel_session_records (now : Nat) (user : User) (aid : Nat)
    (r : Option String) (s : DBState) :
    (applyCancel now user aid r s).session_records = s.session_records := by
  unfold applyCancel
  split
  case h_1 x a1 s1 heq =>
    obtain ⟨appt, _, _, _, _, hs1⟩ := cancelAppointment_ok heq
    rw [hs1]
  case h_2 => rfl

theorem applyComplete_session_records (now : Nat) (user : User) (aid : Nat)
    (s : DBState) :
    (applyComplete now user aid s).session_records = s.session_records := by
  unfold applyComplete
  split
  case h_1 x a1 s1 heq =>
    obtain ⟨appt, _, _, _, hs1⟩ := completeAppointment_ok heq
    rw [hs1]
  case h_2 => rfl

theorem atMostOne_session_step {now : Nat} {user : User} {aid : Nat}
    {end_time : Option Nat} {notes prescription diagnosis treatment : String}
    {s : DBState} (h : atMostOneSessionRecord s) :
    atMostOneSessionRecord (applySession now user aid end_time notes prescription
      diagnosis treatment s) := by
  unfold applySession
  split
  case h_2 => exact h
  case h_1 x rec s1 heq =>
    obtain ⟨hra, hdup, hs1⟩ := sessionRecordCreate_ok heq
    subst hs1
    unfold atMostOneSessionRecord at h ⊢
    rw [List.pairwise_append]
    refine ⟨h, List.pairwise_singleton _ _, ?_⟩
    intro q hq r2 hr2
    simp only [List.mem_singleton] at hr2
    subst hr2
    intro hqa
    have htrue : s.session_records.any (fun q => q.appointment == aid) = true :=
      List.any_eq_true.2 ⟨q, hq, by simp [hqa, hra]⟩
    rw [hdup] at htrue
    exact Bool.false_ne_true htrue

/-- C7: in every reachable state, every appointment has at most one
`SessionRecord`, every operation preserves this, and an attempt to create a
second session record for the same appointment is rejected as a duplicate. -/
theorem C7_at_most_one_session_record :
    (∀ s, ReachableS s → atMostOneSessionRecord s) ∧
    (∀ (now : Nat) (user : User) (aid : Nat) (end_time : Option Nat)
        (notes prescription diagnosis treatment : String) (s : DBState)
        (appointment : Appointment) (r : SessionRecord),
      s.appointments.find? (fun a => a.id == aid) = some appointment →
      user.id = appointment.doctor →
      r ∈ s.session_records → r.appointment = aid →
      sessionRecordCreate now user aid end_time notes prescription diagnosis treatment s
        = .error (.validation "detail" "A session record already exists for this appointment.")) := by
  constructor
  · intro s hr
    induction hr with
    | init => unfold atMostOneSessionRecord initialState; simp
    | create now user doctor dp st dur r hprev ih =>
      unfold atMostOneSessionRecord
      rw [applyCreate_session_records]
      exact ih
    | cancel now user aid r hprev ih =>
      unfold atMostOneSessionRecord
      rw [applyCancel_session_records]
      exact ih
    | complete now user aid hprev ih =>
      unfold atMostOneSessionRecord
      rw [applyComplete_session_records]
      exact ih
    | session now user aid end_time notes prescription diagnosis treatment hprev ih =>
      exact atMostOne_session_step ih
  · intro now user aid end_time notes prescription diagnosis treatment s appointment r
      hfind hdoc hr hra
    unfold sessionRecordCreate
    simp only [hfind]
    rw [if_neg (not_not_intro hdoc)]
    rw [if_pos (List.any_eq_true.2 ⟨r, hr, by simp [hra]⟩)]

/-- Witness for C7: the empty database is reachable and satisfies the
invariant, and a duplicate creation attempt against a concrete state holding a
session record is rejected as a duplicate. -/
theorem C7_at_most_one_session_record_witness :
    atMostOneSessionRecord initialState ∧
    sessionRecordCreate 200 sampleDoctor 7 none "" "" "Flu" "Rest" sampleSessionState
      = .error (.validation "detail" "A session record already exists for this appointment.") :=
  ⟨C7_at_most_one_session_record.1 initialState ReachableS.init,
   C7_at_most_one_session_record.2 200 sampleDoctor 7 none "" "" "Flu" "Rest"
     sampleSessionState sampleCompletedAppointment sampleSessionRecord
     (by decide) (by decide) (by decide) (by decide)⟩

/-- C3 counterexample: a requested change of status out of the terminal state
`CANCELLED` (to `SCHEDULED`, with a past `scheduled_time`) fails with the
past-time validation error rather than with a transition error naming the
states, so the claim as stated is false. -/
theorem C3_counterexample :
    Appointment.clean 100 (some AppointmentStatus.CANCELLED)
      { id := 1, patient := 1, doctor := 2, scheduled_time := 50, duration := 30,
        status := AppointmentStatus.SCHEDULED, reason := "" }
      = .error (.validation "scheduled_time" "Cannot schedule an appointment in the past.") := by
  rfl

/-- C3 (amended): the transition table permits exactly the transitions from
`SCHEDULED` to the three terminal states; a requested change of status out of
a terminal state fails with a transition error naming the current state and
the attempted target and reporting the empty allowed set, except that a change
to `SCHEDULED` with a past `scheduled_time` fails with the past-time
validation error instead. -/
theorem C3_transition_rule :
    (ALLOWED_TRANSITIONS AppointmentStatus.SCHEDULED =
      [AppointmentStatus.COMPLETED, AppointmentStatus.CANCELLED, AppointmentStatus.NOSHOW]) ∧
    (∀ t, t ≠ AppointmentStatus.SCHEDULED → ALLOWED_TRANSITIONS t = []) ∧
    (∀ (now : Nat) (orig : AppointmentStatus) (a : Appointment),
      orig ≠ AppointmentStatus.SCHEDULED → a.status ≠ orig →
      ¬ (a.status = AppointmentStatus.SCHEDULED ∧ a.scheduled_time < now) →
      Appointment.clean now (some orig) a =
        .error (.invalidTransition orig a.status [])) := by
  refine ⟨rfl, ?_, ?_⟩
  · intro t ht
    cases t with
    | SCHEDULED => exact absurd rfl ht
    | COMPLETED => rfl
    | CANCELLED => rfl
    | NOSHOW => rfl
  · intro now orig a horig hne hpast
    have hallow : ALLOWED_TRANSITIONS orig = [] := by
      cases orig with
      | SCHEDULED => exact absurd rfl horig
      | COMPLETED => rfl
      | CANCELLED => rfl
      | NOSHOW => rfl
    rw [clean_some]
    rw [if_neg hpast]
    rw [if_pos ⟨Ne.symm hne, by rw [hallow]; exact List.not_mem_nil a.status⟩]
    rw [hallow]

/-- Witness for C3: a `CANCELLED` → `SCHEDULED` attempt with a future
`scheduled_time` is rejected with a transition error whose allowed-next-state
set is empty. -/
theorem C3_transition_rule_witness :
    Appointment.clean 100 (some AppointmentStatus.CANCELLED)
      { id := 1, patient := 1, doctor := 2, scheduled_time := 500, duration := 30,
        status := AppointmentStatus.SCHEDULED, reason := "" }
      = .error (.invalidTransition AppointmentStatus.CANCELLED
          AppointmentStatus.SCHEDULED []) :=
  C3_transition_rule.2.2 100 AppointmentStatus.CANCELLED
    { id := 1, patient := 1, doctor := 2, scheduled_time := 500, duration := 30,
      status := AppointmentStatus.SCHEDULED, reason := "" }
    (by decide) (by decide) (by decide)

/-- C9: saving an appointment whose status is unchanged never raises a
transition error — the transition validation fires only when the new status
differs from the stored status — and for an unchanged terminal status `clean`
passes outright, so other fields of such an appointment can still be
updated. -/
theorem C9_unchanged_status_saves :
    (∀ (now : Nat) (a : Appointment) (f t : AppointmentStatus)
        (al : List AppointmentStatus),
      Appointment.clean now (some a.status) a ≠ .error (.invalidTransition f t al)) ∧
    (∀ (now : Nat) (a : Appointment), a.status ≠ AppointmentStatus.SCHEDULED →
      Appointment.clean now (some a.status) a = .ok ()) := by
  constructor
  · intro now a f t al
    rw [clean_some]
    split
    · simp
    · rw [if_neg (by intro hc; exact hc.1 rfl)]
      simp
  · intro now a ha
    rw [clean_some]
    rw [if_neg (fun hc => ha hc.1)]
    rw [if_neg (by intro hc; exact hc.1 rfl)]

/-- Witness for C9: resaving a `COMPLETED` appointment with unchanged status
raises no transition error and passes `clean`. -/
theorem C9_unchanged_status_saves_witness :
    (Appointment.clean 1000 (some sampleCompletedAppointment.status)
        sampleCompletedAppointment ≠
      .error (.invalidTransition AppointmentStatus.COMPLETED
        AppointmentStatus.COMPLETED [])) ∧
    Appointment.clean 1000 (some sampleCompletedAppointment.status)
        sampleCompletedAppointment = .ok () :=
  ⟨C9_unchanged_status_saves.1 1000 sampleCompletedAppointment
      AppointmentStatus.COMPLETED AppointmentStatus.COMPLETED [],
   C9_unchanged_status_saves.2 1000 sampleCompletedAppointment (by decide)⟩

/-- C10: the future-time check applies on every save whose new status is
`SCHEDULED` — any update leaving a past appointment in `SCHEDULED` is rejected
with the past-time error — while a transition of a `SCHEDULED` appointment to
any allowed terminal state passes `clean` regardless of `scheduled_time`, and
in particular cancelling a past `SCHEDULED` appointment succeeds. -/
theorem C10_future_check_on_new_status :
    (∀ (now : Nat) (orig : Option AppointmentStatus) (a : Appointment),
      a.status = AppointmentStatus.SCHEDULED → a.scheduled_time < now →
      Appointment.clean now orig a =
        .error (.validation "scheduled_time" "Cannot schedule an appointment in the past.")) ∧
    (∀ (now : Nat) (a : Appointment), a.status = AppointmentStatus.SCHEDULED →
      ∀ t, t ∈ ALLOWED_TRANSITIONS AppointmentStatus.SCHEDULED →
      Appointment.clean now (some a.status) { a with status := t } = .ok ()) ∧
    (∀ (now : Nat) (user : User) (aid : Nat) (r : Option String) (s : DBState)
        (appointment : Appointment),
      s.appointments.find? (fun a => a.id == aid) = some appointment →
      (user.id = appointment.patient ∨ user.id = appointment.doctor ∨
        user.is_admin = true) →
      appointment.status = AppointmentStatus.SCHEDULED →
      ∃ res, cancelAppointment now user aid r s = .ok res) := by
  refine ⟨?_, ?_, ?_⟩
  · intro now orig a ha hpast
    unfold Appointment.clean
    rw [if_pos ⟨ha, hpast⟩]
  · intro now a ha t ht
    have htne : t ≠ AppointmentStatus.SCHEDULED := by
      intro hteq
      rw [hteq] at ht
      exact absurd ht (by decide)
    rw [ha, clean_some]
    rw [if_neg (fun hc => htne hc.1)]
    rw [if_neg (fun hc => hc.2 ht)]
  · intro now user aid r s appointment hfind hauth hstat
    unfold cancelAppointment
    simp only [hfind]
    rw [if_neg (not_not_intro hauth), if_neg (not_not_intro hstat)]
    rw [hstat]
    rw [clean_some]
    rw [if_neg (by simp)]
    rw [if_neg (by simp [ALLOWED_TRANSITIONS])]
    exact ⟨_, rfl⟩

/-- Witness for C10: resaving the past `SCHEDULED` appointment in `SCHEDULED`
at time 1000 is rejected, its transition to `CANCELLED` passes `clean`, and
cancelling it through the view succeeds. -/
theorem C10_future_check_on_new_status_witness :
    (Appointment.clean 1000 (some AppointmentStatus.SCHEDULED) samplePastScheduled =
      .error (.validation "scheduled_time" "Cannot schedule an appointment in the past.")) ∧
    (Appointment.clean 1000 (some samplePastScheduled.status)
        { samplePastScheduled with status := AppointmentStatus.CANCELLED } = .ok ()) ∧
    (∃ res, cancelAppointment 1000 samplePatient 3 none
      { appointments := [samplePastScheduled], session_records := [],
        next_appointment_id := 4, next_session_id := 0 } = .ok res) :=
  ⟨C10_future_check_on_new_status.1 1000 (some AppointmentStatus.SCHEDULED)
      samplePastScheduled (by decide) (by decide),
   C10_future_check_on_new_status.2.1 1000 samplePastScheduled (by decide)
      AppointmentStatus.CANCELLED (by decide),
   C10_future_check_on_new_status.2.2 1000 samplePatient 3 none _
      samplePastScheduled (by decide) (by decide) (by decide)⟩

theorem clean_none (now : Nat) (a : Appointment) :
    Appointment.clean now none a =
      if a.status = AppointmentStatus.SCHEDULED ∧ a.scheduled_time < now then
        .error (.validation "scheduled_time" "Cannot schedule an appointment in the past.")
      else
        .ok () := rfl

theorem conflictExists_iff (did st dur : Nat) (l : List Appointment) :
    conflictExists did st dur l = true ↔
      ∃ a ∈ l, a.doctor = did ∧ a.status = AppointmentStatus.SCHEDULED ∧
        a.scheduled_time < st + dur ∧ st < a.scheduled_time + a.duration := by
  unfold conflictExists
  rw [List.any_eq_true]
  constructor
  · rintro ⟨a, haf, hq⟩
    rw [List.mem_filter] at haf
    obtain ⟨ham, hcond⟩ := haf
    have hc := of_decide_eq_true hcond
    exact ⟨a, ham, hc.1, hc.2.2, hc.2.1, of_decide_eq_true hq⟩
  · rintro ⟨a, ham, h1, h2, h3, h4⟩
    exact ⟨a, List.mem_filter.2 ⟨ham, decide_eq_true ⟨h1, h3, h2⟩⟩, decide_eq_true h4⟩

theorem validate_reduced (now : Nat) (user doctor : User) (dp : DoctorProfile)
    (st dur : Nat) (l : List Appointment)
    (hp : user.is_patient = true)
    (happ : dp.verification_status = VerificationStatus.approved)
    (hfut : ¬ st < now) :
    AppointmentSerializer.validate now user doctor dp st dur l =
      if conflictExists doctor.id st dur l then
        .error (.validation "non_field_errors" "Doctor is not available at this time")
      else
        .ok () := by
  unfold AppointmentSerializer.validate
  rw [if_neg (by simp [hp]), if_neg (not_not_intro happ), if_neg hfut]

/-- C2: a booking request that passes all other validations is rejected iff
some other appointment of the named doctor currently in status `SCHEDULED`
overlaps the half-open candidate interval; appointments in terminal statuses
never cause a conflict rejection. -/
theorem C2_reject_iff_scheduled_conflict (now : Nat) (user doctor : User)
    (dp : DoctorProfile) (st dur : Nat) (r : String) (s : DBState)
    (hp : user.is_patient = true) (hd : doctor.role = Role.doctor)
    (happ : dp.verification_status = VerificationStatus.approved)
    (hfut : now < st) (hdl : 10 ≤ dur) (hdh : dur ≤ 240) :
    createAppointment now user doctor dp st dur r s =
      .error (.validation "non_field_errors" "Doctor is not available at this time")
    ↔ ∃ a ∈ s.appointments, a.doctor = doctor.id ∧
        a.status = AppointmentStatus.SCHEDULED ∧
        a.scheduled_time < st + dur ∧ st < a.scheduled_time + a.duration := by
  unfold createAppointment
  rw [if_neg (not_not_intro hd), if_neg (by omega), if_neg (by omega)]
  rw [validate_reduced now user doctor dp st dur s.appointments hp happ (by omega)]
  by_cases hc : conflictExists doctor.id st dur s.appointments = true
  · rw [if_pos hc]
    constructor
    · intro _
      exact (conflictExists_iff doctor.id st dur s.appointments).1 hc
    · intro _
      rfl
  · rw [if_neg hc]
    rw [if_neg (by simp [hp])]
    dsimp only
    rw [clean_none, if_neg (by rintro ⟨h1, h2⟩; change st < now at h2; omega)]
    constructor
    · intro habs
      exact absurd habs (by simp)
    · intro hex
      exact absurd ((conflictExists_iff doctor.id st dur s.appointments).2 hex) hc

/-- Witness for C2 at a concrete input: booking 09:15 for 30 minutes against
a doctor with an existing 09:00 for 30 minutes `SCHEDULED` appointment is
rejected for overlap (times in minutes: 540 and 555, now = 0). -/
theorem C2_reject_iff_scheduled_conflict_witness :
    createAppointment 0 samplePatient sampleDoctor sampleProfile 555 30 ""
      sampleBusyState =
      .error (.validation "non_field_errors" "Doctor is not available at this time") :=
  (C2_reject_iff_scheduled_conflict 0 samplePatient sampleDoctor sampleProfile 555 30 ""
      sampleBusyState
      (by decide) (by decide) (by decide) (by decide) (by decide) (by decide)).2
    ⟨earlyAppointment, by decide, by decide, by decide, by decide, by decide⟩

/-- C4: for a patient actor, an approved doctor, a future scheduled time, a
duration within bounds and no conflicting `SCHEDULED` appointment of the
doctor, `CreateAppointment` succeeds and yields a new appointment in status
`SCHEDULED` owned by that patient and that doctor. -/
theorem C4_successful_booking (now : Nat) (user doctor : User)
    (dp : DoctorProfile) (st dur : Nat) (r : String) (s : DBState)
    (hp : user.is_patient = true) (hd : doctor.role = Role.doctor)
    (happ : dp.verification_status = VerificationStatus.approved)
    (hfut : now < st) (hdl : 10 ≤ dur) (hdh : dur ≤ 240)
    (hnc : ¬ ∃ a ∈ s.appointments, a.doctor = doctor.id ∧
        a.status = AppointmentStatus.SCHEDULED ∧
        a.scheduled_time < st + dur ∧ st < a.scheduled_time + a.duration) :
    ∃ a s1, createAppointment now user doctor dp st dur r s = .ok (a, s1) ∧
      a.status = AppointmentStatus.SCHEDULED ∧ a.patient = user.id ∧
      a.doctor = doctor.id ∧
      s1.appointments = s.appointments ++ [a] := by
  have hc : conflictExists doctor.id st dur s.appointments = false := by
    rcases hb : conflictExists doctor.id st dur s.appointments with _ | _
    · rfl
    · exact absurd ((conflictExists_iff doctor.id st dur s.appointments).1 hb) hnc
  unfold createAppointment
  rw [if_neg (not_not_intro hd), if_neg (by omega), if_neg (by omega)]
  rw [validate_reduced now user doctor dp st dur s.appointments hp happ (by omega)]
  rw [if_neg (by simp [hc])]
  rw [if_neg (by simp [hp])]
  dsimp only
  rw [clean_none, if_neg (by rintro ⟨h1, h2⟩; change st < now at h2; omega)]
  exact ⟨_, _, rfl, rfl, rfl, rfl, rfl⟩

/-- Witness for C4: patient 1 books approved doctor 2 at time 540 for 30
minutes on an empty database; the booking succeeds. -/
theorem C4_successful_booking_witness :
    ∃ a s1, createAppointment 0 samplePatient sampleDoctor sampleProfile 540 30 ""
        initialState = .ok (a, s1) ∧
      a.status = AppointmentStatus.SCHEDULED ∧ a.patient = samplePatient.id ∧
      a.doctor = sampleDoctor.id ∧
      s1.appointments = initialState.appointments ++ [a] :=
  C4_successful_booking 0 samplePatient sampleDoctor sampleProfile 540 30 ""
    initialState (by decide) (by decide) (by decide) (by decide) (by decide)
    (by decide) (by rintro ⟨a, ha, _⟩; exact absurd ha (by simp [initialState]))

/-- C5 counterexample: for an appointment that is not `COMPLETED` and already
has a session record, `CreateSessionRecord` reports the duplicate error, not
the completed-status error the claim's check order would require. -/
theorem C5_counterexample :
    sessionRecordCreate 300 sampleDoctor 3 none "" "" "Flu" "Rest"
        scheduledWithRecordState =
      .error (.validation "detail" "A session record already exists for this appointment.") ∧
    sessionRecordCreate 300 sampleDoctor 3 none "" "" "Flu" "Rest"
        scheduledWithRecordState ≠
      .error (.validation "detail" "Can only create session record for completed appointments.") := by
  have hvalue : sessionRecordCreate 300 sampleDoctor 3 none "" "" "Flu" "Rest"
      scheduledWithRecordState =
      .error (.validation "detail" "A session record already exists for this appointment.") := rfl
  refine ⟨hvalue, ?_⟩
  rw [hvalue]
  intro h0
  injection h0 with h1
  injection h1 with h2 h3
  exact absurd h3 (by decide)

/-- C5 (amended): `CreateSessionRecord` checks the duplicate-record condition
before the completed-status condition, and the end-time condition last (inside
the model clean, with `start_time` server-assigned to the creation time): a
duplicate is always reported as such even when the status check would also
fail; with no duplicate, a non-`COMPLETED` status is reported; with no
duplicate, `COMPLETED` status, and mandatory fields present, a supplied
`end_time` not strictly after the creation time is reported. -/
theorem C5_session_create_check_order :
    (∀ (now : Nat) (user : User) (aid : Nat) (end_time : Option Nat)
        (notes prescription diagnosis treatment : String) (s : DBState)
        (appointment : Appointment),
      s.appointments.find? (fun a => a.id == aid) = some appointment →
      user.id = appointment.doctor →
      s.session_records.any (fun q => q.appointment == aid) = true →
      sessionRecordCreate now user aid end_time notes prescription diagnosis treatment s =
        .error (.validation "detail" "A session record already exists for this appointment.")) ∧
    (∀ (now : Nat) (user : User) (aid : Nat) (end_time : Option Nat)
        (notes prescription diagnosis treatment : String) (s : DBState)
        (appointment : Appointment),
      s.appointments.find? (fun a => a.id == aid) = some appointment →
      user.id = appointment.doctor →
      s.session_records.any (fun q => q.appointment == aid) = false →
      appointment.status ≠ AppointmentStatus.COMPLETED →
      sessionRecordCreate now user aid end_time notes prescription diagnosis treatment s =
        .error (.validation "detail" "Can only create session record for completed appointments.")) ∧
    (∀ (now : Nat) (user : User) (aid e : Nat)
        (notes prescription diagnosis treatment : String) (s : DBState)
        (appointment : Appointment),
      s.appointments.find? (fun a => a.id == aid) = some appointment →
      user.id = appointment.doctor →
      s.session_records.any (fun q => q.appointment == aid) = false →
      appointment.status = AppointmentStatus.COMPLETED →
      diagnosis ≠ "" → treatment ≠ "" → e ≤ now →
      sessionRecordCreate now user aid (some e) notes prescription diagnosis treatment s =
        .error (.validation "end_time" "End time must be after start time.")) := by
  refine ⟨?_, ?_, ?_⟩
  · intro now user aid end_time notes prescription diagnosis treatment s appointment
      hfind hdoc hdup
    unfold sessionRecordCreate
    simp only [hfind]
    rw [if_neg (not_not_intro hdoc)]
    rw [if_pos hdup]
  · intro now user aid end_time notes prescription diagnosis treatment s appointment
      hfind hdoc hdup hstat
    unfold sessionRecordCreate
    simp only [hfind]
    rw [if_neg (not_not_intro hdoc)]
    rw [if_neg (by simp [hdup])]
    rw [if_pos hstat]
  · intro now user aid e notes prescription diagnosis treatment s appointment
      hfind hdoc hdup hstat hdiag htreat hle
    unfold sessionRecordCreate
    simp only [hfind]
    rw [if_neg (not_not_intro hdoc)]
    rw [if_neg (by simp [hdup])]
    rw [if_neg (not_not_intro hstat)]
    unfold SessionRecord.save
    rw [if_neg (by simp [hdup])]
    unfold SessionRecord.clean
    rw [if_neg hdiag, if_neg htreat]
    rw [if_pos (by simp [hle])]

/-- Witness for C5: concrete instances of all three branches of the amended
check order (duplicate first, then status, then end time). -/
theorem C5_session_create_check_order_witness :
    (sessionRecordCreate 300 sampleDoctor 3 none "" "" "Flu" "Rest"
        scheduledWithRecordState =
      .error (.validation "detail" "A session record already exists for this appointment.")) ∧
    (sessionRecordCreate 300 sampleDoctor 3 none "" "" "Flu" "Rest"
        { appointments := [samplePastScheduled], session_records := [],
          next_appointment_id := 4, next_session_id := 0 } =
      .error (.validation "detail" "Can only create session record for completed appointments.")) ∧
    (sessionRecordCreate 300 sampleDoctor 7 (some 250) "" "" "Flu" "Rest"
        { appointments := [sampleCompletedAppointment], session_records := [],
          next_appointment_id := 8, next_session_id := 0 } =
      .error (.validation "end_time" "End time must be after start time.")) :=
  ⟨C5_session_create_check_order.1 300 sampleDoctor 3 none "" "" "Flu" "Rest"
      scheduledWithRecordState samplePastScheduled (by decide) (by decide) (by decide),
   C5_session_create_check_order.2.1 300 sampleDoctor 3 none "" "" "Flu" "Rest"
      { appointments := [samplePastScheduled], session_records := [],
        next_appointment_id := 4, next_session_id := 0 }
      samplePastScheduled (by decide) (by decide) (by decide) (by decide),
   C5_session_create_check_order.2.2 300 sampleDoctor 7 250 "" "" "Flu" "Rest"
      { appointments := [sampleCompletedAppointment], session_records := [],
        next_appointment_id := 8, next_session_id := 0 }
      sampleCompletedAppointment (by decide) (by decide) (by decide) (by decide)
      (by decide) (by decide) (by decide)⟩

/-- C6: `CancelAppointment` rejects any actor who is not the appointment's
patient, its doctor, or an admin with an authorization error; it succeeds only
for such an actor and only when the status is `SCHEDULED`; and cancelling the
same appointment twice in a row fails the second time, for every actor. -/
theorem C6_cancel_rules :
    (∀ (now : Nat) (user : User) (aid : Nat) (r : Option String) (s : DBState)
        (appointment : Appointment),
      s.appointments.find? (fun a => a.id == aid) = some appointment →
      ¬ (user.id = appointment.patient ∨ user.id = appointment.doctor ∨
          user.is_admin = true) →
      cancelAppointment now user aid r s =
        .error (.permissionDenied "You are not authorized to cancel this appointment.")) ∧
    (∀ (now : Nat) (user : User) (aid : Nat) (r : Option String) (s : DBState)
        (res : Appointment × DBState),
      cancelAppointment now user aid r s = .ok res →
      ∃ appointment, s.appointments.find? (fun a => a.id == aid) = some appointment ∧
        (user.id = appointment.patient ∨ user.id = appointment.doctor ∨
          user.is_admin = true) ∧
        appointment.status = AppointmentStatus.SCHEDULED) ∧
    (∀ (now : Nat) (user : User) (aid : Nat) (r : Option String) (s : DBState)
        (a1 : Appointment) (s1 : DBState),
      cancelAppointment now user aid r s = .ok (a1, s1) →
      ∀ (now2 : Nat) (user2 : User) (r2 : Option String)
        (res2 : Appointment × DBState),
        cancelAppointment now2 user2 aid r2 s1 ≠ .ok res2) := by
  refine ⟨?_, ?_, ?_⟩
  · intro now user aid r s appointment hfind hna
    unfold cancelAppointment
    simp only [hfind]
    rw [if_pos hna]
  · intro now user aid r s res hok
    obtain ⟨a1, s1⟩ := res
    obtain ⟨appointment, hfind, hauth, hstat, _, _⟩ := cancelAppointment_ok hok
    exact ⟨appointment, hfind, hauth, hstat⟩
  · intro now user aid r s a1 s1 hok now2 user2 r2 res2 hcon
    obtain ⟨appointment, hfind, hauth, hstat, ha1, hs1⟩ := cancelAppointment_ok hok
    have haid : appointment.id = aid := by
      have hp := List.find?_some hfind
      simpa using hp
    have hfind2 : s1.appointments.find? (fun a => a.id == aid) = some a1 := by
      rw [hs1]
      exact find?_map_replace s.appointments aid a1 (by rw [ha1]; exact haid)
        appointment hfind
    unfold cancelAppointment at hcon
    simp only [hfind2] at hcon
    split at hcon
    · exact absurd hcon (by simp)
    split at hcon
    · exact absurd hcon (by simp)
    next hns =>
      have hsch : a1.status = AppointmentStatus.SCHEDULED := not_not.mp hns
      rw [ha1] at hsch
      exact absurd hsch (by simp)

/-- Witness for C6: an unrelated patient cannot cancel, a successful cancel by
the doctor implies the authorization and status conditions, and the cancelled
appointment cannot be cancelled again. -/
theorem C6_cancel_rules_witness :
    (cancelAppointment 600 { id := 9, role := Role.patient, is_staff := false }
        0 none sampleBusyState =
      .error (.permissionDenied "You are not authorized to cancel this appointment.")) ∧
    (∃ appointment, sampleBusyState.appointments.find? (fun a => a.id == 0) =
        some appointment ∧
      (sampleDoctor.id = appointment.patient ∨ sampleDoctor.id = appointment.doctor ∨
        sampleDoctor.is_admin = true) ∧
      appointment.status = AppointmentStatus.SCHEDULED) ∧
    cancelAppointment 700 sampleDoctor 0 none cancelledBusyState ≠
      .ok (earlyAppointment, sampleBusyState) :=
  ⟨C6_cancel_rules.1 600 { id := 9, role := Role.patient, is_staff := false }
      0 none sampleBusyState earlyAppointment (by decide) (by decide),
   C6_cancel_rules.2.1 600 sampleDoctor 0 none sampleBusyState
      (cancelledEarlyAppointment, cancelledBusyState) rfl,
   C6_cancel_rules.2.2 600 sampleDoctor 0 none sampleBusyState
      cancelledEarlyAppointment cancelledBusyState rfl 700 sampleDoctor none
      (earlyAppointment, sampleBusyState)⟩

theorem find?_map_setStatus (l : List DoctorProfile) (id : Nat)
    (v : VerificationStatus) :
    ∀ p0, l.find? (fun p => p.id == id) = some p0 →
      (l.map (fun p =>
        if p.id == id then { p with verification_status := v } else p)).find?
          (fun p => p.id == id) = some { p0 with verification_status := v } := by
  induction l with
  | nil => intro p0 hp; simp [List.find?] at hp
  | cons x xs ih =>
    intro p0 hp
    by_cases hx : (x.id == id) = true
    · simp only [List.find?_cons, hx] at hp
      injection hp with hp0
      subst hp0
      simp only [List.map_cons, if_pos hx]
      simp only [List.find?_cons, hx]
    · have hx1 : (x.id == id) = false := by simpa using hx
      simp only [List.find?_cons, hx1] at hp
      simp only [List.map_cons, if_neg hx]
      simp only [List.find?_cons, hx1]
      exact ih p0 hp

/-- C8: `SetVerificationStatus` with a value outside
{pending, approved, rejected} fails with a validation error and changes
nothing; with a value in the set (admin actor, existing profile) it sets the
profile's verification status to that value and modifies no appointment. -/
theorem C8_set_verification_status :
    (∀ (actor : User) (id : Nat) (st : String) (s : AccountsState)
        (orig : DoctorProfile),
      actor.is_staff = true →
      s.doctor_profiles.find? (fun p => p.id == id) = some orig →
      parseVerificationStatus st = none →
      DoctorVerificationView.update actor id st s =
          .error (.validation "error" "Invalid verification status") ∧
        applyVerification actor id st s = s) ∧
    (∀ (actor : User) (id : Nat) (st : String) (v : VerificationStatus)
        (s : AccountsState) (orig : DoctorProfile),
      actor.is_staff = true →
      parseVerificationStatus st = some v →
      s.doctor_profiles.find? (fun p => p.id == id) = some orig →
      ∃ s1, DoctorVerificationView.update actor id st s = .ok s1 ∧
        s1.appointments = s.appointments ∧
        s1.doctor_profiles.find? (fun p => p.id == id) =
          some { orig with verification_status := v }) := by
  constructor
  · intro actor id st s orig hstaff hfind hnone
    have hupd : DoctorVerificationView.update actor id st s =
        .error (.validation "error" "Invalid verification status") := by
      unfold DoctorVerificationView.update
      rw [if_neg (by simp [hstaff])]
      simp only [hfind, hnone]
    refine ⟨hupd, ?_⟩
    unfold applyVerification
    rw [hupd]
  · intro actor id st v s orig hstaff hsome hfind
    refine ⟨{ s with doctor_profiles := s.doctor_profiles.map (fun p =>
        if p.id == id then { p with verification_status := v } else p) }, ?_, rfl, ?_⟩
    · unfold DoctorVerificationView.update
      rw [if_neg (by simp [hstaff])]
      simp only [hfind, hsome]
    · exact find?_map_setStatus s.doctor_profiles id v orig hfind

/-- Witness for C8: an admin setting the sample profile's status to the
unknown value "verified" gets the invalid-status error and changes nothing,
while setting it to "rejected" succeeds, rewrites the profile, and leaves the
appointments untouched. -/
theorem C8_set_verification_status_witness :
    (DoctorVerificationView.update sampleAdmin 1 "verified" sampleAccounts =
        .error (.validation "error" "Invalid verification status") ∧
      applyVerification sampleAdmin 1 "verified" sampleAccounts = sampleAccounts) ∧
    (∃ s1, DoctorVerificationView.update sampleAdmin 1 "rejected" sampleAccounts =
        .ok s1 ∧
      s1.appointments = sampleAccounts.appointments ∧
      s1.doctor_profiles.find? (fun p => p.id == 1) =
        some { sampleProfile with
                 verification_status := VerificationStatus.rejected }) :=
  ⟨C8_set_verification_status.1 sampleAdmin 1 "verified" sampleAccounts
      sampleProfile rfl (by decide) (by decide),
   C8_set_verification_status.2 sampleAdmin 1 "rejected"
      VerificationStatus.rejected sampleAccounts sampleProfile rfl (by decide)
      (by decide)⟩

end Medihelp
